import Mathlib

/-!
Verification development for the TRELLIS.2 + Flux generation service
(`src/trellis2_wrapper.py` and `src/trellis2_server.py`).

The wrapper's model-residency logic is embedded as explicit state passing
over `PipelineState`; the server's job store as an association list kept in
insertion order (Python dicts preserve insertion order).  External
collaborators (the actual Flux/TRELLIS models, PIL image decoding, the
filesystem) are opaque: loads are modelled by fresh handle identifiers and
counters, the outcome of a generation run and of PIL's image verification
are parameters of the embedding.
-/

namespace Trellis2

/-- Residency state of the combined pipeline (`Trellis2Pipeline` in
`trellis2_wrapper.py`).  `fluxPipe` / `trellisPipe` model the `_flux_pipe` /
`_trellis_pipe` attributes (`some h` = resident with handle identity `h`,
`none` = not resident); `compiled` models the `_compiled` one-shot flag.
The counters are instrumentation: how many expensive loads, compile
attempts, successful compiles, and unload-function invocations happened. -/
structure PipelineState where
  memory_mode : String
  fluxPipe : Option Nat
  trellisPipe : Option Nat
  compiled : Bool
  fluxLoadCount : Nat
  trellisLoadCount : Nat
  compileAttempts : Nat
  compileSuccesses : Nat
  fluxUnloadCalls : Nat
  trellisUnloadCalls : Nat
deriving Repr, DecidableEq

/-- `Trellis2Pipeline._load_flux`: if `_flux_pipe is None`, perform the
expensive load (fresh handle, counter bump); otherwise return the existing
handle unchanged. -/
def load_flux (s : PipelineState) : PipelineState × Nat :=
  match s.fluxPipe with
  | some h => (s, h)
  | none =>
      let h := s.fluxLoadCount + 1
      ({ s with fluxPipe := some h, fluxLoadCount := s.fluxLoadCount + 1 }, h)

/-- `Trellis2Pipeline._load_trellis(use_compile)`: load the pipeline only if
`_trellis_pipe is None`; then, outside that guard, run the `torch.compile`
block when `use_compile and not self._compiled`.  The block sets
`_compiled = True` only when no exception occurs; `ok` is the outcome of the
external `torch.compile` calls (`false` = the `except` branch is taken, the
flag stays unset). -/
def load_trellis (use_compile ok : Bool) (s : PipelineState) : PipelineState × Nat :=
  let s1 :=
    match s.trellisPipe with
    | some _ => s
    | none =>
        { s with trellisPipe := some (s.trellisLoadCount + 1),
                 trellisLoadCount := s.trellisLoadCount + 1 }
  let s2 :=
    if use_compile && !s1.compiled then
      if ok then
        { s1 with compileAttempts := s1.compileAttempts + 1,
                  compiled := true,
                  compileSuccesses := s1.compileSuccesses + 1 }
      else
        { s1 with compileAttempts := s1.compileAttempts + 1 }
    else s1
  (s2, s2.trellisPipe.getD 0)

/-- `Trellis2Pipeline._unload_flux`: the function body frees the model only
when `_flux_pipe is not None`; the call counter records every invocation. -/
def unload_flux (s : PipelineState) : PipelineState :=
  let s1 := { s with fluxUnloadCalls := s.fluxUnloadCalls + 1 }
  match s1.fluxPipe with
  | some _ => { s1 with fluxPipe := none }
  | none => s1

/-- `Trellis2Pipeline._unload_trellis`: frees the model only when
`_trellis_pipe is not None`; note it does not touch `_compiled`. -/
def unload_trellis (s : PipelineState) : PipelineState :=
  let s1 := { s with trellisUnloadCalls := s.trellisUnloadCalls + 1 }
  match s1.trellisPipe with
  | some _ => { s1 with trellisPipe := none }
  | none => s1

/-- `Trellis2Pipeline.__init__` after the memory mode has been resolved
(the `auto` probe reads environment and RAM, external to this model; the
claims speak of the mode the constructor resolves to).  In `keep_loaded`
mode the constructor preloads Flux only when `preload_flux` (default
`False`) and TRELLIS only when `preload_trellis` (default `True`,
`_load_trellis()` is called with its default `use_compile=False`); in any
other mode nothing is preloaded. -/
def initPipeline (memory_mode : String) (preload_flux preload_trellis : Bool) :
    PipelineState :=
  let s0 : PipelineState := ⟨memory_mode, none, none, false, 0, 0, 0, 0, 0, 0⟩
  if memory_mode == "keep_loaded" then
    let s1 := if preload_flux then (load_flux s0).1 else s0
    if preload_trellis then (load_trellis false false s1).1 else s1
  else s0

/-- First action of `text_to_3d`: `if self.memory_mode == 'swap':
self._unload_trellis()`. -/
def text_step1 (s : PipelineState) : PipelineState :=
  if s.memory_mode == "swap" then unload_trellis s else s

/-- Second action of `text_to_3d`: `generate_image` calls `self._load_flux()`. -/
def text_step2 (s : PipelineState) : PipelineState :=
  (load_flux s).1

/-- Third action of `text_to_3d`: `if self.memory_mode == 'swap':
self._unload_flux()`. -/
def text_step3 (s : PipelineState) : PipelineState :=
  if s.memory_mode == "swap" then unload_flux s else s

/-- Fourth action of `text_to_3d`: `image_to_3d` calls
`self._load_trellis(use_compile=...)`; `ok` is the compile outcome. -/
def text_step4 (use_compile ok : Bool) (s : PipelineState) : PipelineState :=
  (load_trellis use_compile ok s).1

/-- The residency states observed along one `text_to_3d` call, entry state
included, one entry after each primitive load/unload operation. -/
def text_to_3d_states (use_compile ok : Bool) (s : PipelineState) :
    List PipelineState :=
  [s, text_step1 s, text_step2 (text_step1 s),
   text_step3 (text_step2 (text_step1 s)),
   text_step4 use_compile ok (text_step3 (text_step2 (text_step1 s)))]

/-- The state after a full `text_to_3d` call. -/
def text_to_3d_run (use_compile ok : Bool) (s : PipelineState) : PipelineState :=
  text_step4 use_compile ok (text_step3 (text_step2 (text_step1 s)))

/-- The state after a full `image_to_3d` call: its only residency action is
`self._load_trellis(use_compile=...)`. -/
def image_to_3d_run (use_compile ok : Bool) (s : PipelineState) : PipelineState :=
  (load_trellis use_compile ok s).1

/-- Both models simultaneously resident. -/
def bothResident (s : PipelineState) : Prop :=
  s.fluxPipe.isSome ∧ s.trellisPipe.isSome

instance (s : PipelineState) : Decidable (bothResident s) := by
  unfold bothResident; infer_instance

/-- Alphabet of the pipeline's primitive residency operations, as invoked by
load, unload and generation calls. -/
inductive PipeOp where
  | loadF : PipeOp
  | unloadF : PipeOp
  | loadT (use_compile ok : Bool) : PipeOp
  | unloadT : PipeOp
deriving Repr, DecidableEq

/-- Apply one primitive operation to the pipeline state. -/
def applyOp (s : PipelineState) : PipeOp → PipelineState
  | .loadF => (load_flux s).1
  | .unloadF => unload_flux s
  | .loadT u ok => (load_trellis u ok s).1
  | .unloadT => unload_trellis s

/-- Run a sequence of primitive operations. -/
def runOps (ops : List PipeOp) (s : PipelineState) : PipelineState :=
  ops.foldl applyOp s

/-- Bookkeeping invariant of the one-shot compile flag: a successful compile
is recorded exactly when the flag is set, and has happened at most once. -/
def compileInv (s : PipelineState) : Prop :=
  (s.compiled = false → s.compileSuccesses = 0) ∧ s.compileSuccesses ≤ 1

/-! ## Server model (`trellis2_server.py`)

The job store `JOBS` is a Python dict from job id to a job record; dicts
preserve insertion order, so it is embedded as an association list in
submission order. -/

/-- One entry of `JOBS`.  `result` is the mapping of named outputs to
download references (`none` until the job succeeds); `error` is the captured
exception message (`none` until the job fails). -/
structure Job where
  job_id : String
  jtype : String
  prompt : Option String
  quality : String
  seed : Int
  status : String
  stage : Option String
  stage_description : Option String
  error : Option String
  result : Option (List (String × Option String))
  timings : Option (List (String × Nat))
deriving Repr, DecidableEq

/-- The `JOBS` dict, in insertion (= submission) order. -/
abbrev JobStore := List (String × Job)

/-- `JOBS.get(job_id)`: first (only) entry with the given key. -/
def lookupJob : JobStore → String → Option Job
  | [], _ => none
  | p :: rest, jid => if p.1 == jid then some p.2 else lookupJob rest jid

/-- In-place mutation of the record stored under `jid` (other keys are
untouched). -/
def updateJob : JobStore → String → (Job → Job) → JobStore
  | [], _, _ => []
  | p :: rest, jid, f =>
      (if p.1 == jid then (p.1, f p.2) else p) :: updateJob rest jid f

/-- The `_on_progress` callback bound to a job: writes `stage` and
`stage_description`. -/
def applyProgress (j : Job) (ev : String × String) : Job :=
  { j with stage := some ev.1, stage_description := some ev.2 }

/-- Outcome of the opaque generation work inside `_run_job`'s `try` block:
either the engine produced a mesh (and, for text jobs, an image), or some
exception with message `msg` was raised.  The code sets `job["result"]` in
one assignment whose right-hand side is fully evaluated first, and no
statement after it can raise, so a failure never leaves a partial result. -/
inductive RunOutcome where
  | success (glb : String) (image : Option String) (timings : List (String × Nat)) : RunOutcome
  | failure (msg : String) : RunOutcome

/-- Opening phase of `_run_job`: set status `running`, stage `starting`,
then apply whatever progress events the engine reports. -/
def markRunning (progress : List (String × String)) (j : Job) : Job :=
  List.foldl applyProgress
    { j with status := "running", stage := some "starting",
             stage_description := some "Starting job" } progress

/-- Success epilogue of `_run_job`: record the result mapping (text jobs get
a `glb` and an `image` reference, image jobs only `glb`), the timings, and
the terminal `done` state. -/
def finishSuccess (glb : String) (image : Option String)
    (timings : List (String × Nat)) (j : Job) : Job :=
  { j with
      result := some (if j.jtype == "text"
        then [("glb", some glb), ("image", image)]
        else [("glb", some glb)]),
      timings := some timings,
      status := "done", stage := some "complete",
      stage_description := some "Complete" }

/-- `except` branch of `_run_job`: terminal `failed` state with
`stage = "error"` and `error = str(exc)`; nothing else is touched. -/
def finishFailure (msg : String) (j : Job) : Job :=
  { j with status := "failed", stage := some "error", error := some msg }

/-- `_run_job(job_id, ...)`: mark the job running, let the engine report
progress through the callback, then either record the success epilogue or
catch the exception and record the failure epilogue (the exception does not
propagate — `run_job` is total). -/
def run_job (store : JobStore) (jid : String) (progress : List (String × String))
    (outcome : RunOutcome) : JobStore :=
  let store1 := updateJob store jid (markRunning progress)
  match outcome with
  | .success glb image timings => updateJob store1 jid (finishSuccess glb image timings)
  | .failure msg => updateJob store1 jid (finishFailure msg)

/-- Python `str.strip()` on a character list: drop leading and trailing
whitespace. -/
def stripChars (l : List Char) : List Char :=
  List.reverse (List.dropWhile Char.isWhitespace
    (List.reverse (List.dropWhile Char.isWhitespace l)))

/-- `request.prompt.strip()`. -/
def pyStrip (p : String) : String :=
  String.mk (stripChars p.data)

/-- Python string `<` (lexicographic by code point), as used by `sorted`
with a string key. -/
def strLtChars : List Char → List Char → Bool
  | [], [] => false
  | [], _ :: _ => true
  | _ :: _, [] => false
  | c :: cs, d :: ds =>
      if c.val < d.val then true
      else if d.val < c.val then false
      else strLtChars cs ds

/-- Lexicographic comparison of two strings. -/
def strLt (a b : String) : Bool :=
  strLtChars a.data b.data

/-- Quality values accepted by `TextSubmitRequest.quality`
(`Literal["superfast", "fast", "balanced", "high"]`). -/
def textQualities : List String := ["superfast", "fast", "balanced", "high"]

/-- Quality values accepted by the `quality` query parameter of
`submit_image` (`Literal["fast", "balanced", "high"]`). -/
def imageQualities : List String := ["fast", "balanced", "high"]

/-- The record stored by `submit_text` (status `queued`, stripped prompt). -/
def mkTextJob (jid prompt quality : String) (seed : Int) : Job :=
  ⟨jid, "text", some prompt, quality, seed, "queued", none, none, none, none, none⟩

/-- The record stored by `submit_image` (status `queued`). -/
def mkImageJob (jid quality : String) (seed : Int) : Job :=
  ⟨jid, "image", none, quality, seed, "queued", none, none, none, none, none⟩

/-- `POST /submit/text`: FastAPI first validates the request body (an
out-of-range `quality` is rejected with 422 before the handler runs), then
the handler strips the prompt and rejects an empty result with 400;
otherwise a fresh id `nid` (uuid4, external) is stored with status `queued`.
Returns the handler outcome together with the resulting store. -/
def submit_text (store : JobStore) (prompt quality : String) (seed : Int)
    (nid : String) : Except Nat String × JobStore :=
  if !(textQualities.contains quality) then (.error 422, store)
  else
    let p := pyStrip prompt
    if p == "" then (.error 400, store)
    else (.ok nid, store ++ [(nid, mkTextJob nid p quality seed)])

/-- `POST /submit/image`: FastAPI validates the `quality` query parameter
(422 on mismatch), then the handler rejects a missing filename, empty bytes,
and bytes PIL cannot verify as an image, each with 400, before any job is
created.  `decodable` is the outcome of the external
`Image.open(...).verify()` call on `data`. -/
def submit_image (store : JobStore) (filename : String) (data : List Nat)
    (decodable : Bool) (quality : String) (seed : Int) (nid : String) :
    Except Nat String × JobStore :=
  if !(imageQualities.contains quality) then (.error 422, store)
  else if filename == "" then (.error 400, store)
  else if data.isEmpty then (.error 400, store)
  else if !decodable then (.error 400, store)
  else (.ok nid, store ++ [(nid, mkImageJob nid quality seed)])

/-- Stable insertion into a list sorted by `job_id` descending: the inserted
job came earlier in the original order, so among equal keys it goes first,
exactly as Python's stable `sorted(..., reverse=True)`. -/
def insertDescById (j : Job) : List Job → List Job
  | [] => [j]
  | y :: ys => if strLt j.job_id y.job_id then y :: insertDescById j ys else j :: y :: ys

/-- `sorted(jobs, key=lambda x: x.get("job_id", ""), reverse=True)`. -/
def sortByIdDesc : List Job → List Job
  | [] => []
  | x :: xs => insertDescById x (sortByIdDesc xs)

/-- `GET /jobs`: take the stored jobs in insertion order, filter by status
when the filter is truthy (Python `if status:` treats `""` as no filter),
sort by `job_id` descending, truncate to `limit`. -/
def list_jobs (store : JobStore) (statusFilter : Option String) (lim : Nat) :
    List Job :=
  let jobs := List.map (fun p => p.2) store
  let jobs :=
    match statusFilter with
    | some st => if st == "" then jobs else List.filter (fun j => j.status == st) jobs
    | none => jobs
  List.take lim (sortByIdDesc jobs)

/-- Characters after the last `/`, i.e. POSIX `os.path.basename` on the
character list. -/
def basenameChars (l : List Char) : List Char :=
  List.foldl (fun acc c => if c == '/' then [] else acc ++ [c]) [] l

/-- `os.path.basename(filename)` as used by `download_file`. -/
def basename (p : String) : String :=
  String.mk (basenameChars p.data)

/-- `os.path.join(OUTPUT_DIR, job_id, safe_filename)` as a segment list;
`OUTPUT_DIR` (default `./outputs`) is modelled as the single segment
`"outputs"`. -/
def download_path (job_id filename : String) : List String :=
  ["outputs", job_id, basename filename]

/-- Filesystem resolution of a segment list: empty and `.` segments are
no-ops, `..` pops the last segment. -/
def normalizeSegs (segs : List String) : List String :=
  List.foldl
    (fun acc s =>
      if s == "" || s == "." then acc
      else if s == ".." then acc.dropLast
      else acc ++ [s]) [] segs

/-- The resolved path still lies inside the job's output directory. -/
def withinJobDir (segs : List String) (job_id : String) : Bool :=
  match normalizeSegs segs with
  | o :: j :: _ => o == "outputs" && j == job_id
  | _ => false

/-- A job submitted first whose random uuid4 id happens to sort high. -/
def jobSubmittedFirst : Job :=
  ⟨"b1", "text", some "first prompt", "fast", 42, "done", none, none, none, none, none⟩

/-- A job submitted second whose random uuid4 id happens to sort low. -/
def jobSubmittedSecond : Job :=
  ⟨"a2", "text", some "second prompt", "fast", 42, "done", none, none, none, none, none⟩

/-- A store holding the two jobs above in submission order. -/
def twoJobStore : JobStore :=
  [("b1", jobSubmittedFirst), ("a2", jobSubmittedSecond)]

-- Basic frame lemmas about the residency operations.

theorem unload_trellis_trellisPipe (s : PipelineState) :
    (unload_trellis s).trellisPipe = none := by
  unfold unload_trellis
  cases s.trellisPipe <;> simp

theorem unload_trellis_fluxPipe (s : PipelineState) :
    (unload_trellis s).fluxPipe = s.fluxPipe := by
  unfold unload_trellis
  cases h : s.trellisPipe <;> simp

theorem unload_trellis_mode (s : PipelineState) :
    (unload_trellis s).memory_mode = s.memory_mode := by
  unfold unload_trellis
  cases h : s.trellisPipe <;> simp

theorem unload_flux_fluxPipe (s : PipelineState) :
    (unload_flux s).fluxPipe = none := by
  unfold unload_flux
  cases h : s.fluxPipe <;> simp

theorem unload_flux_trellisPipe (s : PipelineState) :
    (unload_flux s).trellisPipe = s.trellisPipe := by
  unfold unload_flux
  cases h : s.fluxPipe <;> simp

theorem unload_flux_mode (s : PipelineState) :
    (unload_flux s).memory_mode = s.memory_mode := by
  unfold unload_flux
  cases h : s.fluxPipe <;> simp

theorem load_flux_trellisPipe (s : PipelineState) :
    (load_flux s).1.trellisPipe = s.trellisPipe := by
  unfold load_flux
  cases h : s.fluxPipe <;> simp

theorem load_flux_mode (s : PipelineState) :
    (load_flux s).1.memory_mode = s.memory_mode := by
  unfold load_flux
  cases h : s.fluxPipe <;> simp

theorem load_trellis_fluxPipe (u ok : Bool) (s : PipelineState) :
    (load_trellis u ok s).1.fluxPipe = s.fluxPipe := by
  unfold load_trellis
  cases h : s.trellisPipe <;> cases u <;> cases hc : s.compiled <;> cases ok <;> simp [h, hc]

theorem load_trellis_mode (u ok : Bool) (s : PipelineState) :
    (load_trellis u ok s).1.memory_mode = s.memory_mode := by
  unfold load_trellis
  cases h : s.trellisPipe <;> cases u <;> cases hc : s.compiled <;> cases ok <;> simp [h, hc]

theorem load_flux_fluxUnloadCalls (s : PipelineState) :
    (load_flux s).1.fluxUnloadCalls = s.fluxUnloadCalls := by
  unfold load_flux
  cases h : s.fluxPipe <;> simp

theorem load_flux_trellisUnloadCalls (s : PipelineState) :
    (load_flux s).1.trellisUnloadCalls = s.trellisUnloadCalls := by
  unfold load_flux
  cases h : s.fluxPipe <;> simp

theorem load_trellis_fluxUnloadCalls (u ok : Bool) (s : PipelineState) :
    (load_trellis u ok s).1.fluxUnloadCalls = s.fluxUnloadCalls := by
  unfold load_trellis
  cases h : s.trellisPipe <;> cases u <;> cases hc : s.compiled <;> cases ok <;> simp [h, hc]

theorem load_trellis_trellisUnloadCalls (u ok : Bool) (s : PipelineState) :
    (load_trellis u ok s).1.trellisUnloadCalls = s.trellisUnloadCalls := by
  unfold load_trellis
  cases h : s.trellisPipe <;> cases u <;> cases hc : s.compiled <;> cases ok <;> simp [h, hc]

/-- C1: under the `swap` residency policy, along one `text_to_3d` job the
mesh model is released before the image model is loaded and the image model
is released before the mesh model is loaded, so at no observed state of the
trace (from an entry state where the two models are not both resident, as
`swap` mode guarantees) are `_flux_pipe` and `_trellis_pipe` simultaneously
non-`None`. -/
theorem swap_never_both_resident (u ok : Bool) (s : PipelineState)
    (hmode : s.memory_mode = "swap") (hentry : ¬ bothResident s) :
    ∀ t ∈ text_to_3d_states u ok s, ¬ bothResident t := by
  have h1t : (text_step1 s).trellisPipe = none := by
    simp [text_step1, hmode, unload_trellis_trellisPipe]
  have h1m : (text_step1 s).memory_mode = "swap" := by
    simp [text_step1, hmode, unload_trellis_mode]
  have h2t : (text_step2 (text_step1 s)).trellisPipe = none := by
    simp [text_step2, load_flux_trellisPipe, h1t]
  have h2m : (text_step2 (text_step1 s)).memory_mode = "swap" := by
    simp [text_step2, load_flux_mode, h1m]
  have h3f : (text_step3 (text_step2 (text_step1 s))).fluxPipe = none := by
    simp [text_step3, h2m, unload_flux_fluxPipe]
  have h4f :
      (text_step4 u ok (text_step3 (text_step2 (text_step1 s)))).fluxPipe = none := by
    simp [text_step4, load_trellis_fluxPipe, h3f]
  intro t ht
  simp only [text_to_3d_states, List.mem_cons, List.not_mem_nil, or_false] at ht
  rcases ht with rfl | rfl | rfl | rfl | rfl
  · exact hentry
  · simp [bothResident, h1t]
  · simp [bothResident, h2t]
  · simp [bothResident, h3f]
  · simp [bothResident, h4f]

/-- Witness for C1 at a concrete entry state: the fresh swap-mode pipeline
(nothing preloaded), running a `balanced`-style job (no compile). -/
theorem swap_never_both_resident_witness :
    ¬ bothResident (text_to_3d_run false false (initPipeline "swap" false true)) :=
  swap_never_both_resident false false (initPipeline "swap" false true)
    (by decide) (by decide) (text_to_3d_run false false (initPipeline "swap" false true))
    (by decide)

/-- C2, counterexample: the module-level instance is constructed as
`Trellis2Pipeline(preload_trellis=True, memory_mode="auto")`, leaving
`preload_flux` at its default `False`; with the mode resolving to
`keep_loaded`, `_flux_pipe` is still `None` after construction, so the two
models are not both resident at startup. -/
theorem keep_loaded_startup_cx :
    (initPipeline "keep_loaded" false true).fluxPipe = none ∧
    ¬ ((initPipeline "keep_loaded" false true).fluxPipe.isSome = true ∧
       (initPipeline "keep_loaded" false true).trellisPipe.isSome = true) := by
  decide

/-- C2, amended: under `keep_loaded` the mesh model (TRELLIS) is loaded
eagerly at construction, but the image model (Flux) is not (it is loaded
lazily on first use, `preload_flux` defaulting to `False`); and no call path
of `text_to_3d` or `image_to_3d` in `keep_loaded` mode ever invokes an
unload. -/
theorem keep_loaded_lazy_flux_no_unload :
    (initPipeline "keep_loaded" false true).trellisPipe.isSome = true ∧
    (initPipeline "keep_loaded" false true).fluxPipe = none ∧
    (∀ (s : PipelineState) (u ok : Bool), s.memory_mode = "keep_loaded" →
      (text_to_3d_run u ok s).fluxUnloadCalls = s.fluxUnloadCalls ∧
      (text_to_3d_run u ok s).trellisUnloadCalls = s.trellisUnloadCalls ∧
      (image_to_3d_run u ok s).fluxUnloadCalls = s.fluxUnloadCalls ∧
      (image_to_3d_run u ok s).trellisUnloadCalls = s.trellisUnloadCalls) := by
  refine ⟨by decide, by decide, ?_⟩
  intro s u ok hmode
  have h1 : text_step1 s = s := by
    simp [text_step1, hmode]
  have h3 : text_step3 ((load_flux s).1) = (load_flux s).1 := by
    simp [text_step3, load_flux_mode, hmode]
  refine ⟨?_, ?_, ?_, ?_⟩ <;>
    simp only [text_to_3d_run, image_to_3d_run, text_step4, text_step2, h1, h3,
      load_trellis_fluxUnloadCalls, load_trellis_trellisUnloadCalls,
      load_flux_fluxUnloadCalls, load_flux_trellisUnloadCalls]

/-- Witness for C2 (amended) at the module-level instance in `keep_loaded`
mode: a full `text_to_3d` call invokes no unload. -/
theorem keep_loaded_lazy_flux_no_unload_witness :
    (text_to_3d_run false false (initPipeline "keep_loaded" false true)).fluxUnloadCalls =
      (initPipeline "keep_loaded" false true).fluxUnloadCalls :=
  (keep_loaded_lazy_flux_no_unload.2.2 (initPipeline "keep_loaded" false true)
    false false (by decide)).1

/-- C6: ensuring residency is idempotent.  A second `_load_flux` from any
state is a no-op returning the same handle; a second `_load_trellis` returns
the same resident pipeline object and performs no second expensive load
(one call performs at most one load). -/
theorem ensure_resident_idempotent :
    (∀ s : PipelineState,
      load_flux (load_flux s).1 = load_flux s ∧
      (load_flux s).1.fluxLoadCount ≤ s.fluxLoadCount + 1) ∧
    (∀ (s : PipelineState) (u1 ok1 u2 ok2 : Bool),
      (load_trellis u2 ok2 (load_trellis u1 ok1 s).1).2 = (load_trellis u1 ok1 s).2 ∧
      (load_trellis u2 ok2 (load_trellis u1 ok1 s).1).1.trellisPipe =
        (load_trellis u1 ok1 s).1.trellisPipe ∧
      (load_trellis u2 ok2 (load_trellis u1 ok1 s).1).1.trellisLoadCount =
        (load_trellis u1 ok1 s).1.trellisLoadCount ∧
      (load_trellis u1 ok1 s).1.trellisLoadCount ≤ s.trellisLoadCount + 1) := by
  constructor
  · intro s
    cases h : s.fluxPipe <;> simp [load_flux, h]
  · intro s u1 ok1 u2 ok2
    cases h : s.trellisPipe <;> cases u1 <;> cases ok1 <;> cases u2 <;> cases ok2 <;>
      cases hc : s.compiled <;> simp [load_trellis, h, hc]

/-- C7, counterexample: a failed `torch.compile` attempt does not set
`_compiled`, so a later `_load_trellis(use_compile=True)` runs the compile
block again — here the optimization step executes twice in one process. -/
theorem compile_retry_cx :
    (runOps [PipeOp.loadT true false, PipeOp.loadT true true]
      (initPipeline "swap" false false)).compileAttempts = 2 := by
  decide

theorem applyOp_compile_cases (s : PipelineState) (op : PipeOp) :
    ((applyOp s op).compiled = s.compiled ∧
     (applyOp s op).compileSuccesses = s.compileSuccesses ∧
     (applyOp s op).compileAttempts = s.compileAttempts) ∨
    (s.compiled = false ∧ (applyOp s op).compiled = false ∧
     (applyOp s op).compileSuccesses = s.compileSuccesses ∧
     (applyOp s op).compileAttempts = s.compileAttempts + 1) ∨
    (s.compiled = false ∧ (applyOp s op).compiled = true ∧
     (applyOp s op).compileSuccesses = s.compileSuccesses + 1 ∧
     (applyOp s op).compileAttempts = s.compileAttempts + 1) := by
  cases op with
  | loadF => cases h : s.fluxPipe <;> simp [applyOp, load_flux, h]
  | unloadF => cases h : s.fluxPipe <;> simp [applyOp, unload_flux, h]
  | unloadT => cases h : s.trellisPipe <;> simp [applyOp, unload_trellis, h]
  | loadT u ok =>
      cases h : s.trellisPipe <;> cases u <;> cases ok <;> cases hc : s.compiled <;>
        simp [applyOp, load_trellis, h, hc]

theorem applyOp_compile_facts (s : PipelineState) (op : PipeOp)
    (hinv : compileInv s) :
    compileInv (applyOp s op) ∧
    (s.compiled = true → (applyOp s op).compiled = true ∧
      (applyOp s op).compileAttempts = s.compileAttempts) := by
  obtain ⟨h1, h2⟩ := hinv
  rcases applyOp_compile_cases s op with
    ⟨hcmp, hsuc, hatt⟩ | ⟨hc0, hcmp, hsuc, hatt⟩ | ⟨hc0, hcmp, hsuc, hatt⟩
  · refine ⟨⟨?_, ?_⟩, ?_⟩
    · intro hx; rw [hcmp] at hx; rw [hsuc]; exact h1 hx
    · rw [hsuc]; exact h2
    · intro hx
      exact ⟨by rw [hcmp]; exact hx, hatt⟩
  · have h0 := h1 hc0
    refine ⟨⟨fun _ => by rw [hsuc]; exact h0, by rw [hsuc]; exact h2⟩, ?_⟩
    intro hx; rw [hc0] at hx; exact Bool.noConfusion hx
  · have h0 := h1 hc0
    refine ⟨⟨?_, ?_⟩, ?_⟩
    · intro hx; rw [hcmp] at hx; exact Bool.noConfusion hx
    · omega
    · intro hx; rw [hc0] at hx; exact Bool.noConfusion hx

/-- C7, amended: once `_compiled` is true it stays true across every
sequence of load, unload and generation operations and the compile block is
never entered again; a successful compilation happens at most once per
process; but a failed compile attempt leaves the flag unset, so the compile
step may be re-attempted on a later `use_compile` load (see the
counterexample). -/
theorem compiled_flag_monotone (ops : List PipeOp) (s : PipelineState)
    (hinv : compileInv s) :
    compileInv (runOps ops s) ∧
    (s.compiled = true → (runOps ops s).compiled = true ∧
      (runOps ops s).compileAttempts = s.compileAttempts) ∧
    (runOps ops s).compileSuccesses ≤ 1 := by
  induction ops generalizing s with
  | nil =>
      exact ⟨hinv, fun h => ⟨h, rfl⟩, hinv.2⟩
  | cons op rest ih =>
      have hstep := applyOp_compile_facts s op hinv
      have hrest := ih (applyOp s op) hstep.1
      have hfold : runOps (op :: rest) s = runOps rest (applyOp s op) := by
        simp [runOps, List.foldl]
      rw [hfold]
      refine ⟨hrest.1, ?_, hrest.2.2⟩
      intro hc
      have hop := hstep.2 hc
      have hr := hrest.2.1 hop.1
      exact ⟨hr.1, by rw [hr.2, hop.2]⟩

/-- Witness for C7 (amended): a concrete successful compile followed by an
unload/reload keeps the invariant (and the flag). -/
theorem compiled_flag_monotone_witness :
    compileInv (runOps [PipeOp.loadT true true, PipeOp.unloadT, PipeOp.loadT true false]
      (initPipeline "swap" false false)) :=
  (compiled_flag_monotone
    [PipeOp.loadT true true, PipeOp.unloadT, PipeOp.loadT true false]
    (initPipeline "swap" false false) (by constructor <;> decide)).1

-- Job-store lemmas.

theorem lookupJob_updateJob_self (store : JobStore) (jid : String) (f : Job → Job) :
    lookupJob (updateJob store jid f) jid = Option.map f (lookupJob store jid) := by
  induction store with
  | nil => rfl
  | cons p rest ih =>
      by_cases hp : p.1 = jid
      · simp [lookupJob, updateJob, hp]
      · simp [lookupJob, updateJob, hp, ih]

theorem lookupJob_updateJob_other (store : JobStore) (jid k : String) (f : Job → Job)
    (h : k ≠ jid) :
    lookupJob (updateJob store jid f) k = lookupJob store k := by
  induction store with
  | nil => rfl
  | cons p rest ih =>
      by_cases hp : p.1 = jid
      · have hjk : jid ≠ k := fun hx => h hx.symm
        simp [lookupJob, updateJob, hp, hjk, ih]
      · simp [lookupJob, updateJob, hp, ih]

theorem markRunning_frame (progress : List (String × String)) (j : Job) :
    (markRunning progress j).jtype = j.jtype ∧
    (markRunning progress j).status = "running" ∧
    (markRunning progress j).result = j.result ∧
    (markRunning progress j).error = j.error := by
  have aux : ∀ (l : List (String × String)) (x : Job),
      (List.foldl applyProgress x l).jtype = x.jtype ∧
      (List.foldl applyProgress x l).status = x.status ∧
      (List.foldl applyProgress x l).result = x.result ∧
      (List.foldl applyProgress x l).error = x.error := by
    intro l
    induction l with
    | nil => exact fun x => ⟨rfl, rfl, rfl, rfl⟩
    | cons ev rest ih =>
        intro x
        simpa [List.foldl, applyProgress] using ih (applyProgress x ev)
  unfold markRunning
  exact aux progress _

/-- C3: any exception raised during a job's background execution is caught
at `_run_job`'s boundary: the job's record gets status `failed`, stage
`error`, and `error` set to the exception's message, while every other
job's record is left untouched (and `run_job` is a total function — the
exception does not propagate). -/
theorem run_job_failure_isolated (store : JobStore) (jid : String)
    (progress : List (String × String)) (msg : String) (j : Job)
    (hj : lookupJob store jid = some j) :
    (∃ j', lookupJob (run_job store jid progress (.failure msg)) jid = some j' ∧
      j'.status = "failed" ∧ j'.stage = some "error" ∧ j'.error = some msg) ∧
    (∀ k, k ≠ jid →
      lookupJob (run_job store jid progress (.failure msg)) k = lookupJob store k) := by
  constructor
  · simp only [run_job]
    rw [lookupJob_updateJob_self, lookupJob_updateJob_self, hj]
    exact ⟨_, rfl, rfl, rfl, rfl⟩
  · intro k hk
    simp only [run_job]
    rw [lookupJob_updateJob_other _ _ _ _ hk, lookupJob_updateJob_other _ _ _ _ hk]

/-- Witness for C3: a two-job store; the failing job is marked failed with
the captured message and the sibling job is untouched. -/
theorem run_job_failure_isolated_witness :
    (∃ j', lookupJob (run_job [("a", mkTextJob "a" "cube" "fast" 42),
        ("b", mkTextJob "b" "cone" "fast" 7)] "a" [] (.failure "CUDA out of memory"))
        "a" = some j' ∧
      j'.status = "failed" ∧ j'.stage = some "error" ∧
      j'.error = some "CUDA out of memory") ∧
    lookupJob (run_job [("a", mkTextJob "a" "cube" "fast" 42),
        ("b", mkTextJob "b" "cone" "fast" 7)] "a" [] (.failure "CUDA out of memory"))
        "b" =
      lookupJob [("a", mkTextJob "a" "cube" "fast" 42),
        ("b", mkTextJob "b" "cone" "fast" 7)] "b" := by
  refine ⟨(run_job_failure_isolated _ "a" [] "CUDA out of memory"
    (mkTextJob "a" "cube" "fast" 42) (by decide)).1, ?_⟩
  exact (run_job_failure_isolated _ "a" [] "CUDA out of memory"
    (mkTextJob "a" "cube" "fast" 42) (by decide)).2 "b" (by decide)

/-- C5: starting from a job whose `result` and `error` are unset (as stored
at submission), the terminal state written by `_run_job` populates exactly
one of them: `done` comes with a non-empty result mapping and no error,
`failed` with an error message and no result. -/
theorem terminal_state_exclusive (store : JobStore) (jid : String)
    (progress : List (String × String)) (outcome : RunOutcome) (j : Job)
    (hj : lookupJob store jid = some j) (hr : j.result = none)
    (he : j.error = none) :
    ∃ j', lookupJob (run_job store jid progress outcome) jid = some j' ∧
      (j'.status = "done" ∨ j'.status = "failed") ∧
      (j'.status = "done" → (∃ l, j'.result = some l ∧ l ≠ []) ∧ j'.error = none) ∧
      (j'.status = "failed" → j'.error.isSome = true ∧ j'.result = none) := by
  cases outcome with
  | success glb image timings =>
      simp only [run_job]
      rw [lookupJob_updateJob_self, lookupJob_updateJob_self, hj]
      refine ⟨finishSuccess glb image timings (markRunning progress j), rfl,
        Or.inl rfl, ?_, ?_⟩
      · intro _
        refine ⟨⟨_, rfl, ?_⟩, ?_⟩
        · split <;> simp
        · have hfr := (markRunning_frame progress j).2.2.2
          simp only [finishSuccess]
          rw [hfr, he]
      · intro hx
        have hst : (finishSuccess glb image timings (markRunning progress j)).status =
            "done" := rfl
        rw [hst] at hx
        exact absurd hx (by decide)
  | failure msg =>
      simp only [run_job]
      rw [lookupJob_updateJob_self, lookupJob_updateJob_self, hj]
      refine ⟨finishFailure msg (markRunning progress j), rfl, Or.inr rfl, ?_, ?_⟩
      · intro hx
        have hst : (finishFailure msg (markRunning progress j)).status = "failed" := rfl
        rw [hst] at hx
        exact absurd hx (by decide)
      · intro _
        refine ⟨rfl, ?_⟩
        have hfr := (markRunning_frame progress j).2.2.1
        simp only [finishFailure]
        rw [hfr, hr]

/-- Witness for C5 at concrete inputs, one success and one failure. -/
theorem terminal_state_exclusive_witness :
    (∃ j', lookupJob (run_job [("a", mkTextJob "a" "cube" "fast" 42)] "a" []
        (.success "model.glb" (some "model_image.png") [("flux_generate", 12)])) "a" =
        some j' ∧
      (j'.status = "done" ∨ j'.status = "failed") ∧
      (j'.status = "done" → (∃ l, j'.result = some l ∧ l ≠ []) ∧ j'.error = none) ∧
      (j'.status = "failed" → j'.error.isSome = true ∧ j'.result = none)) ∧
    (∃ j', lookupJob (run_job [("b", mkImageJob "b" "high" 7)] "b" []
        (.failure "not an image")) "b" = some j' ∧
      (j'.status = "done" ∨ j'.status = "failed") ∧
      (j'.status = "done" → (∃ l, j'.result = some l ∧ l ≠ []) ∧ j'.error = none) ∧
      (j'.status = "failed" → j'.error.isSome = true ∧ j'.result = none)) :=
  ⟨terminal_state_exclusive _ "a" [] _ (mkTextJob "a" "cube" "fast" 42)
      (by decide) rfl rfl,
   terminal_state_exclusive _ "b" [] _ (mkImageJob "b" "high" 7)
      (by decide) rfl rfl⟩

/-- C4: malformed submissions are rejected synchronously with HTTP 400
before any job is created — a text submission whose prompt trims to empty,
and an image submission whose bytes are empty or fail PIL verification,
both return the 400 error and leave the job store unchanged. -/
theorem malformed_submission_rejected :
    (∀ (store : JobStore) (prompt quality : String) (seed : Int) (nid : String),
      textQualities.contains quality = true → pyStrip prompt = "" →
      submit_text store prompt quality seed nid = (Except.error 400, store)) ∧
    (∀ (store : JobStore) (filename : String) (data : List Nat) (decodable : Bool)
      (quality : String) (seed : Int) (nid : String),
      imageQualities.contains quality = true →
      (data = [] ∨ decodable = false) →
      submit_image store filename data decodable quality seed nid =
        (Except.error 400, store)) := by
  constructor
  · intro store prompt quality seed nid hq hp
    have hq' : quality ∈ textQualities := by simpa using hq
    simp [submit_text, hq', hp]
  · intro store filename data dec quality seed nid hq hd
    have hq' : quality ∈ imageQualities := by simpa using hq
    rcases hd with rfl | rfl
    · by_cases hf : filename = "" <;> simp [submit_image, hq', hf]
    · cases data with
      | nil => by_cases hf : filename = "" <;> simp [submit_image, hq', hf]
      | cons d ds =>
          by_cases hf : filename = "" <;> simp [submit_image, hq', hf, List.isEmpty]

/-- Witness for C4: a whitespace-only prompt and corrupt image bytes are
both rejected with 400 and the (empty) store is unchanged. -/
theorem malformed_submission_rejected_witness :
    submit_text [] "   " "fast" 42 "id1" = (Except.error 400, []) ∧
    submit_image [] "photo.png" [7, 7] false "fast" 42 "id2" =
      (Except.error 400, []) :=
  ⟨malformed_submission_rejected.1 [] "   " "fast" 42 "id1" (by decide) (by decide),
   malformed_submission_rejected.2 [] "photo.png" [7, 7] false "fast" 42 "id2"
     (by decide) (Or.inr rfl)⟩

/-- C8: `list_jobs` sorts by descending `job_id`, which is a random uuid4
string, not by submission time — a job submitted first whose id sorts high
is listed before a job submitted later whose id sorts low, contradicting
the most-recent-first ordering promised by the spec and by the code's own
comment. -/
theorem list_jobs_uuid_order_bug :
    list_jobs twoJobStore none 50 = [jobSubmittedFirst, jobSubmittedSecond] ∧
    jobSubmittedFirst.job_id = "b1" ∧ jobSubmittedSecond.job_id = "a2" := by
  decide

/-- C9, counterexample: the requested filename `".."` survives
`os.path.basename` unchanged, and the joined path `outputs/job1/..` resolves
to the parent output directory — outside the job's directory. -/
theorem download_dotdot_escape_cx :
    basename ".." = ".." ∧
    normalizeSegs (download_path "job1" "..") = ["outputs"] ∧
    withinJobDir (download_path "job1" "..") "job1" = false := by
  decide

theorem slash_not_mem_basenameChars (l : List Char) :
    '/' ∉ basenameChars l := by
  have aux : ∀ (l acc : List Char), '/' ∉ acc →
      '/' ∉ List.foldl (fun acc c => if c == '/' then [] else acc ++ [c]) acc l := by
    intro l
    induction l with
    | nil => intro acc h; exact h
    | cons c cs ih =>
        intro acc h
        simp only [List.foldl]
        by_cases hc : c = '/'
        · have hb : (c == '/') = true := by simp [hc]
          rw [hb]
          exact ih [] (List.not_mem_nil _)
        · have hb : (c == '/') = false := by simp [hc]
          rw [hb]
          apply ih
          intro hmem
          rcases List.mem_append.1 hmem with h' | h'
          · exact h h'
          · simp only [List.mem_singleton] at h'
            exact hc h'.symm
  exact aux l [] (List.not_mem_nil _)

/-- C9, amended: the resolved path is always the base name of the requested
filename joined under the job's output directory, and the base name
contains no separator, so no file outside the job's directory can ever be
addressed; every filename whose base name is not `".."` resolves inside the
job's directory, while a base name of `".."` resolves to the output root
directory itself (the lone escape, shown in the counterexample). -/
theorem download_basename_contained (job_id filename : String)
    (h1 : job_id ≠ "") (h2 : job_id ≠ ".") (h3 : job_id ≠ "..") :
    download_path job_id filename = ["outputs", job_id, basename filename] ∧
    '/' ∉ (basename filename).data ∧
    (basename filename ≠ ".." →
      withinJobDir (download_path job_id filename) job_id = true) ∧
    (basename filename = ".." →
      normalizeSegs (download_path job_id filename) = ["outputs"]) := by
  have hnorm2 : List.foldl
      (fun acc s => if s == "" || s == "." then acc
        else if s == ".." then acc.dropLast else acc ++ [s]) []
      ["outputs", job_id] = ["outputs", job_id] := by
    simp [h1, h2, h3]
  refine ⟨rfl, slash_not_mem_basenameChars filename.data, ?_, ?_⟩
  · intro hf
    unfold withinJobDir normalizeSegs download_path
    rw [show (["outputs", job_id, basename filename] : List String) =
      ["outputs", job_id] ++ [basename filename] from rfl, List.foldl_append, hnorm2]
    by_cases hf1 : basename filename = ""
    · simp [hf1]
    · by_cases hf2 : basename filename = "."
      · simp [hf2]
      · simp [hf1, hf2, hf]
  · intro hf
    unfold normalizeSegs download_path
    rw [show (["outputs", job_id, basename filename] : List String) =
      ["outputs", job_id] ++ [basename filename] from rfl, List.foldl_append, hnorm2]
    simp [hf]

/-- Witness for C9 (amended): a traversal attempt `"../../etc/passwd"`
resolves to the plain file name `passwd` inside the job's directory. -/
theorem download_basename_contained_witness :
    withinJobDir (download_path "job1" "../../etc/passwd") "job1" = true :=
  (download_basename_contained "job1" "../../etc/passwd"
    (by decide) (by decide) (by decide)).2.2.1 (by decide)

/-- C10: the two submission endpoints accept different quality enumerations:
`superfast` is accepted for a text submission but the image endpoint's
`Literal["fast", "balanced", "high"]` rejects it with a validation error
(422), for any upload and before any job is created. -/
theorem quality_enums_differ :
    textQualities.contains "superfast" = true ∧
    imageQualities.contains "superfast" = false ∧
    (∀ (store : JobStore) (filename : String) (data : List Nat) (decodable : Bool)
       (seed : Int) (nid : String),
      submit_image store filename data decodable "superfast" seed nid =
        (Except.error 422, store)) ∧
    (∀ (store : JobStore) (prompt : String) (seed : Int) (nid : String),
      pyStrip prompt ≠ "" →
      (submit_text store prompt "superfast" seed nid).1 = Except.ok nid) := by
  refine ⟨by decide, by decide, ?_, ?_⟩
  · intro store filename data dec seed nid
    rfl
  · intro store prompt seed nid hp
    have hmem : ("superfast" : String) ∈ textQualities := by decide
    simp [submit_text, hp, hmem]

/-- Witness for C10: the same quality value accepted on the text endpoint. -/
theorem quality_enums_differ_witness :
    (submit_text [] "A cube" "superfast" 42 "id3").1 = Except.ok "id3" :=
  quality_enums_differ.2.2.2 [] "A cube" 42 "id3" (by decide)

end Trellis2
